import Mathlib

/-!
# Verification of the `relay` MCP client

A shallow embedding of the core of the `relay` repository (a JSON-RPC /
MCP client with three transports and an OAuth2 flow), together with
theorems settling the behavioural claims about it.

Conventions of the embedding:

* Structured JSON values are modelled by the inductive `Json` below.
  The text-parsing stage performed by `serde_json::from_str` is
  abstracted as an `Option Json` input: `none` stands for a payload
  that is not valid JSON text, `some j` for a payload whose parse
  result is `j`.  All field-level decoding logic is translated from
  the `serde` semantics of the Rust type definitions.
* Rust machine integers are modelled as `Nat`/`Int` with explicit
  range conditions (`< 2^64` for `u64`, i32 range for `i32`).
* Fallible Rust code returning `anyhow::Result` is modelled with
  `Except`/`Option`; the distinct error constructors mirror the
  distinct error messages constructed in the source.
* Effects (the system clock, TCP binds, network calls) are passed in
  explicitly as parameters or environment records.
-/

namespace Relay

/-- Structured JSON values (the model of `serde_json::Value`).
Objects keep their fields as an ordered association list. -/
inductive Json where
  | null : Json
  | bool (b : Bool) : Json
  | num (n : Int) : Json
  | str (s : String) : Json
  | arr (elems : List Json) : Json
  | obj (fields : List (String × Json)) : Json

/-- First binding of a key in an object's field list (the behaviour of
`serde`'s field visitor for the first occurrence of a field). -/
def assoc {α : Type} (k : String) : List (String × α) → Option α
  | [] => none
  | (k2, v) :: rest => if k2 = k then some v else assoc k rest

/-- Field lookup on a `Json` value: `Some` only on objects. -/
def Json.getField (j : Json) (k : String) : Option Json :=
  match j with
  | .obj fields => assoc k fields
  | _ => none

/-- `Value::as_str`. -/
def Json.asStr : Json → Option String
  | .str s => some s
  | _ => none

/-- `value.get(key).and_then(|v| v.as_str())`. -/
def Json.getStr (j : Json) (k : String) : Option String :=
  (j.getField k).bind Json.asStr

/-- JSON-RPC 2.0 request id: `enum RequestId { Number(u64), String(String) }`
(src/mcp/protocol.rs).  The `u64` payload is a `Nat`; a value is
representable in Rust iff it is `< 2^64`. -/
inductive RequestId where
  | num (n : Nat) : RequestId
  | str (s : String) : RequestId
deriving DecidableEq

/-- Decoding of `RequestId` under `#[serde(untagged)]`: a JSON number
that fits in `u64` becomes `Number`, a JSON string becomes `String`,
everything else fails. -/
def decodeRequestId : Json → Except String RequestId
  | .num n => if 0 ≤ n ∧ n < 2 ^ 64 then .ok (.num n.toNat) else .error "invalid id"
  | .str s => .ok (.str s)
  | _ => .error "invalid id"

/-- Serialization of `RequestId` under `#[serde(untagged)]`. -/
def encodeRequestId : RequestId → Json
  | .num n => .num n
  | .str s => .str s

/-- `struct JsonRpcError { code: i32, message: String, data: Option<Value> }`. -/
structure JsonRpcError where
  code : Int
  message : String
  data : Option Json

/-- Decoding of an optional `Option<Value>`-typed field: a missing field
and an explicit `null` both produce `None` (serde's `Option` semantics). -/
def decodeOptValueField (j : Json) (k : String) : Option Json :=
  match j.getField k with
  | none => none
  | some .null => none
  | some v => some v

/-- serde-derived decoding of `JsonRpcError`: `code` must be an i32
number, `message` a string, `data` optional. -/
def decodeJsonRpcError (j : Json) : Except String JsonRpcError :=
  match j with
  | .obj _ =>
    match j.getField "code", j.getField "message" with
    | some (.num c), some (.str m) =>
      if -(2 ^ 31) ≤ c ∧ c < 2 ^ 31 then
        .ok ⟨c, m, decodeOptValueField j "data"⟩
      else .error "code out of range"
    | _, _ => .error "missing or invalid field in error object"
  | _ => .error "error is not an object"

/-- `struct JsonRpcResponse { jsonrpc, id, result: Option<Value>, error: Option<JsonRpcError> }`. -/
structure JsonRpcResponse where
  jsonrpc : String
  id : RequestId
  result : Option Json
  error : Option JsonRpcError

/-- `JsonRpcResponse::is_success` (src/mcp/protocol.rs). -/
def JsonRpcResponse.is_success (r : JsonRpcResponse) : Bool :=
  r.result.isSome && r.error.isNone

/-- serde-derived decoding of `JsonRpcResponse` from a parsed payload
(`none` = the payload was not valid JSON text).  `jsonrpc` and `id` are
required fields; `result` and `error` are plain `Option` fields, so a
missing field or an explicit `null` yields `None` and is NOT an error:
the derive does not enforce the exactly-one-of-result/error invariant. -/
def decodeJsonRpcResponse : Option Json → Except String JsonRpcResponse
  | none => .error "invalid JSON"
  | some j =>
    match j with
    | .obj _ =>
      match j.getField "jsonrpc", j.getField "id" with
      | some (.str ver), some idj =>
        match decodeRequestId idj with
        | .error e => .error e
        | .ok rid =>
          let result := decodeOptValueField j "result"
          match j.getField "error" with
          | none => .ok ⟨ver, rid, result, none⟩
          | some .null => .ok ⟨ver, rid, result, none⟩
          | some ej =>
            match decodeJsonRpcError ej with
            | .error e => .error e
            | .ok err => .ok ⟨ver, rid, result, some err⟩
      | _, _ => .error "missing jsonrpc or id"
    | _ => .error "response is not an object"

/-- `struct JsonRpcRequest { jsonrpc, id, method, params: Option<Value> }`. -/
structure JsonRpcRequest where
  jsonrpc : String
  id : RequestId
  method : String
  params : Option Json

/-- serde serialization of `JsonRpcRequest`; `params` carries
`#[serde(skip_serializing_if = "Option::is_none")]` so a `None` params
field is omitted from the output object. -/
def encodeJsonRpcRequest (r : JsonRpcRequest) : Json :=
  .obj ([("jsonrpc", .str r.jsonrpc), ("id", encodeRequestId r.id),
         ("method", .str r.method)] ++
        (match r.params with
         | none => []
         | some p => [("params", p)]))

/-- serde-derived decoding of `JsonRpcRequest`. -/
def decodeJsonRpcRequest : Option Json → Except String JsonRpcRequest
  | none => .error "invalid JSON"
  | some j =>
    match j with
    | .obj _ =>
      match j.getField "jsonrpc", j.getField "id", j.getField "method" with
      | some (.str ver), some idj, some (.str m) =>
        (decodeRequestId idj).map (fun rid => ⟨ver, rid, m, decodeOptValueField j "params"⟩)
      | _, _, _ => .error "missing required field"
    | _ => .error "request is not an object"

/-! ## Persistent-stream (SSE) transport: 202-Accepted drain loop
(src/mcp/transport/sse.rs, `SseTransport::request`). -/

/-- One message pulled from the SSE transport's internal queue, as seen
by the drain loop: the raw string's `serde_json::from_str` parse stage
is abstracted as `Option Json` (`none` = the text was not valid JSON). -/
abbrev QueueMsg := Option Json

/-- The drain loop run by `SseTransport::request` after a `202 Accepted`:
`while let Some(data) = c.response_rx.recv().await { if let Ok(resp) =
from_str::<JsonRpcResponse>(&data) { if resp.id == request_id { return Ok(resp) } } }`.
The queue is modelled as the list of messages it will deliver before
closing; `none` as a result models the `ConnectionClosed` error returned
when the channel closes without a match. -/
def drainQueue (request_id : RequestId) : List QueueMsg → Option JsonRpcResponse
  | [] => none
  | msg :: rest =>
    match decodeJsonRpcResponse msg with
    | .ok resp => if resp.id = request_id then some resp else drainQueue request_id rest
    | .error _ => drainQueue request_id rest

/-! ## HTTP transport: status/error classification
(src/mcp/transport/http.rs, `HttpTransport::request`, lines 79–111). -/

/-- Errors produced by `HttpTransport::request` before the success path.
`authRequired` is `HttpTransportError::AuthRequired { server_name }`;
`oauthError` is `anyhow!("{}: {}", error, description)`;
`httpError` is `anyhow!("HTTP error {}: {}", status, body)`. -/
inductive HttpErr where
  | authRequired (server_name : String) : HttpErr
  | oauthError (error description : String) : HttpErr
  | httpError (status : Nat) (body : String) : HttpErr
deriving DecidableEq

/-- `reqwest::StatusCode::is_success`: 2xx. -/
def isSuccessStatus (status : Nat) : Bool :=
  200 ≤ status && status < 300

/-- The status-classification portion of `HttpTransport::request`:
401 becomes `AuthRequired` before the body is even read; any other
non-success status reads the body text (`body`) and tries to parse it
as JSON (`parsed`, the abstracted `serde_json::from_str::<Value>`
result): a string-valued `error` field equal to `invalid_token` is
promoted to `AuthRequired`, any other string-valued `error` field is
surfaced with its (defaulted-empty) `error_description`, and everything
else is surfaced as `HTTP error {status}: {body}`.  `none` = a success
status, which proceeds to response parsing. -/
def classifyHttpStatus (server_name : String) (status : Nat) (body : String)
    (parsed : Option Json) : Option HttpErr :=
  if status = 401 then
    some (.authRequired server_name)
  else if !isSuccessStatus status then
    match parsed with
    | some oauth_error =>
      match oauth_error.getStr "error" with
      | some error =>
        let description := (oauth_error.getStr "error_description").getD ""
        if error = "invalid_token" then some (.authRequired server_name)
        else some (.oauthError error description)
      | none => some (.httpError status body)
    | none => some (.httpError status body)
  else
    none

/-! ## OAuth callback parsing (src/auth/oauth.rs, `parse_callback`). -/

/-- The distinct failure messages of `parse_callback`. -/
inductive CallbackError where
  | invalidRequest : CallbackError
  | noQuery : CallbackError
  | authorizationFailed (error description : String) : CallbackError
  | missingState : CallbackError
  | stateMismatch : CallbackError
  | missingCode : CallbackError
deriving DecidableEq

/-- Percent-decoding (`urlencoding::decode`), modelled at code-point
level: `%hh` with two hex digits becomes the character with that code,
malformed escapes are passed through unchanged.  (The Rust original
decodes at byte level and yields an empty string on invalid UTF-8;
the difference is invisible for ASCII data, which is all the claims
exercise.)  First, the value of an ASCII hex digit: -/
def hexDigitVal (c : Char) : Nat :=
  if '0' ≤ c ∧ c ≤ '9' then c.toNat - '0'.toNat
  else if 'a' ≤ c ∧ c ≤ 'f' then c.toNat - 'a'.toNat + 10
  else if 'A' ≤ c ∧ c ≤ 'F' then c.toNat - 'A'.toNat + 10
  else 0

/-- Whether a character is an ASCII hex digit. -/
def isHexChar (c : Char) : Bool :=
  ('0' ≤ c && c ≤ '9') || ('a' ≤ c && c ≤ 'f') || ('A' ≤ c && c ≤ 'F')

def percentDecode : List Char → List Char
  | [] => []
  | '%' :: a :: b :: rest =>
    if isHexChar a && isHexChar b then
      Char.ofNat (16 * hexDigitVal a + hexDigitVal b) :: percentDecode rest
    else
      '%' :: percentDecode (a :: b :: rest)
  | c :: rest => c :: percentDecode rest

/-- Splitting a character list at every character satisfying `p`
(keeping empty pieces), the semantics of Rust `str::split`. -/
def splitPred (p : Char → Bool) : List Char → List (List Char)
  | [] => [[]]
  | x :: rest =>
    let r := splitPred p rest
    if p x then [] :: r
    else
      match r with
      | [] => [[x]]
      | piece :: t => (x :: piece) :: t

/-- Rust `str::split_whitespace`: split on whitespace, dropping empty
pieces. -/
def splitWhitespace (s : String) : List String :=
  ((splitPred Char.isWhitespace s.data).filter (· ≠ [])).map List.asString

/-- Rust `str::split(c)` as a list of strings. -/
def splitOnChar (c : Char) (s : String) : List String :=
  (splitPred (· = c) s.data).map List.asString

/-- Rust `param.splitn(2, '=')` followed by `parts.next()` twice with
`unwrap_or("")`: the key is everything before the first `=`, the value
everything after it (empty when there is no `=`). -/
def splitKeyValue (param : String) : String × String :=
  match param.data.findIdx? (· = '=') with
  | some i => (⟨param.data.take i⟩, ⟨param.data.drop (i + 1)⟩)
  | none => (param, "")

/-- The four mutable bindings of `parse_callback`'s parameter loop. -/
structure CallbackParams where
  code : Option String
  state : Option String
  error : Option String
  error_description : Option String

/-- The parameter loop of `parse_callback`: split the query on `&`,
split each parameter at its first `=`, percent-decode the value, and
assign it to the binding named by the key (later occurrences win,
unknown keys are ignored). -/
def accumParams (query : String) : CallbackParams :=
  (splitOnChar '&' query).foldl
    (fun acc param =>
      let kv := splitKeyValue param
      let value : String := ⟨percentDecode kv.2.data⟩
      match kv.1 with
      | "code" => { acc with code := some value }
      | "state" => { acc with state := some value }
      | "error" => { acc with error := some value }
      | "error_description" => { acc with error_description := some value }
      | _ => acc)
    ⟨none, none, none, none⟩

/-- The checks following the loop in `parse_callback`: a reported
`error` aborts first (with the defaulted-empty description); then a
missing or mismatching `state` aborts (the CSRF guard) before the code
is looked at; finally the `code` is returned if present. -/
def checkCallback (p : CallbackParams) (expected_state : String) :
    Except CallbackError String :=
  match p.error with
  | some err => .error (.authorizationFailed err (p.error_description.getD ""))
  | none =>
    match p.state with
    | none => .error .missingState
    | some st =>
      if st ≠ expected_state then .error .stateMismatch
      else
        match p.code with
        | some c => .ok c
        | none => .error .missingCode

/-- `parse_callback(request_line, expected_state)` (src/auth/oauth.rs,
lines 726–772): take the second whitespace-delimited token of the HTTP
request line as the path, the second `?`-delimited piece of the path as
the query, and run the parameter loop and checks above. -/
def parse_callback (request_line : String) (expected_state : String) :
    Except CallbackError String :=
  match (splitWhitespace request_line).get? 1 with
  | none => .error .invalidRequest
  | some path =>
    match (splitOnChar '?' path).get? 1 with
    | none => .error .noQuery
    | some query => checkCallback (accumParams query) expected_state

/-! ## OAuth client acquisition (src/auth/oauth.rs,
`OAuthFlow::authenticate` lines 399–464 and
`OAuthFlow::register_new_client` lines 256–286). -/

/-- Index of the first occurrence of `pat` in `hay` (Rust `str::find`
with a string pattern), or `none`. -/
def findSub (hay pat : List Char) : Option Nat :=
  match hay with
  | [] => if pat = [] then some 0 else none
  | _ :: tail =>
    if pat.isPrefixOf hay then some 0
    else (findSub tail pat).map (· + 1)

/-- Rust `str::parse::<u16>`: optional leading `+`, then one or more
ASCII digits, value at most 65535. -/
def parseU16 (cs : List Char) : Option Nat :=
  let digits := match cs with
    | '+' :: rest => rest
    | _ => cs
  if digits = [] then none
  else if digits.all Char.isDigit then
    let n := digits.foldl (fun acc c => 10 * acc + (c.toNat - '0'.toNat)) 0
    if n < 65536 then some n else none
  else none

/-- `extract_port_from_uri` (src/auth/oauth.rs, lines 120–133): find
`://`, then the first `:` after it, then parse everything up to the
next `/` (or the end) as a `u16` port. -/
def extract_port_from_uri (uri : String) : Option Nat :=
  match findSub uri.data "://".data with
  | none => none
  | some host_start =>
    let rest := uri.data.drop (host_start + 3)
    match findSub rest [':'] with
    | none => none
    | some colon_pos =>
      let after_colon := rest.drop (colon_pos + 1)
      let port_end := (findSub after_colon ['/']).getD after_colon.length
      parseU16 (after_colon.take port_end)

/-- `struct StoredClient` (src/auth/storage.rs). -/
structure StoredClient where
  client_id : String
  client_secret : Option String
  redirect_uri : Option String
deriving DecidableEq

/-- `struct ClientRegistrationResponse` (src/auth/oauth.rs). -/
structure ClientRegistrationResponse where
  client_id : String
  client_secret : Option String
deriving DecidableEq

/-- `AuthStore::set_client`: `HashMap::insert`, modelled on the
association list as replace-or-append. -/
def setClient (auth_server : String) (c : StoredClient) :
    List (String × StoredClient) → List (String × StoredClient)
  | [] => [(auth_server, c)]
  | (k, v) :: rest =>
    if k = auth_server then (k, c) :: rest
    else (k, v) :: setClient auth_server c rest

/-- `AuthStore::remove_client`: `HashMap::remove`. -/
def removeClient (auth_server : String) :
    List (String × StoredClient) → List (String × StoredClient)
  | [] => []
  | (k, v) :: rest =>
    if k = auth_server then rest
    else (k, v) :: removeClient auth_server rest

/-- The environment of effects consumed by client acquisition:
whether binding a loopback listener on a given port succeeds, which
port an ephemeral (`127.0.0.1:0`) bind yields (`none` = the bind
fails), and the outcome of the dynamic-registration HTTP call. -/
structure AcquireEnv where
  bindPortOk : Nat → Bool
  ephemeralPort : Option Nat
  regOutcome : Except String ClientRegistrationResponse

/-- Failure modes of client acquisition.  `noRegistrationEndpoint` is
the `anyhow!("No stored client and no registration endpoint available")`
error; `bindCallbackFailed` the `"Failed to bind callback server"`
context; `registrationFailed` a failed registration call. -/
inductive AcquireError where
  | noRegistrationEndpoint : AcquireError
  | bindCallbackFailed : AcquireError
  | registrationFailed (msg : String) : AcquireError
deriving DecidableEq

/-- A successful client acquisition: the port the callback listener is
bound on, the redirect URI and client to use, the resulting persisted
`clients` mapping, and whether a (re-)registration was persisted
(`save()` ran). -/
structure AcquireOk where
  port : Nat
  redirect_uri : String
  client : StoredClient
  clients : List (String × StoredClient)
  registered : Bool
deriving DecidableEq

/-- `OAuthFlow::register_new_client`: require a registration endpoint,
bind `127.0.0.1:0`, build `http://localhost:{port}/callback`, register,
then `set_client` and `save()` the new registration. -/
def register_new_client (env : AcquireEnv) (registration_endpoint : Option String)
    (auth_server : String) (clients : List (String × StoredClient)) :
    Except AcquireError AcquireOk :=
  match registration_endpoint with
  | none => .error .noRegistrationEndpoint
  | some _ =>
    match env.ephemeralPort with
    | none => .error .bindCallbackFailed
    | some port =>
      let redirect_uri := "http://localhost:" ++ toString port ++ "/callback"
      match env.regOutcome with
      | .error e => .error (.registrationFailed e)
      | .ok response =>
        let client : StoredClient :=
          ⟨response.client_id, response.client_secret, some redirect_uri⟩
        .ok ⟨port, redirect_uri, client, setClient auth_server client clients, true⟩

/-- The client-acquisition step of `OAuthFlow::authenticate` (and,
identically, of `authenticate_with_auth_server`): reuse the stored
client when its recorded redirect URI yields a parsable port and that
exact port can be bound; otherwise discard the stored client and
re-register; with no stored client, register directly. -/
def acquireClient (env : AcquireEnv) (registration_endpoint : Option String)
    (auth_server : String) (clients : List (String × StoredClient)) :
    Except AcquireError AcquireOk :=
  match assoc auth_server clients with
  | some stored =>
    match stored.redirect_uri with
    | some stored_uri =>
      match extract_port_from_uri stored_uri with
      | some port =>
        if env.bindPortOk port then
          .ok ⟨port, stored_uri, stored, clients, false⟩
        else
          register_new_client env registration_endpoint auth_server
            (removeClient auth_server clients)
      | none =>
        register_new_client env registration_endpoint auth_server
          (removeClient auth_server clients)
    | none =>
      register_new_client env registration_endpoint auth_server
        (removeClient auth_server clients)
  | none => register_new_client env registration_endpoint auth_server clients

/-! ## PKCE generation (src/auth/oauth.rs, `generate_pkce`, lines 73-101). -/

/-- Truncation to a 32-bit word. -/
def w32 (x : Nat) : Nat := x % 2 ^ 32

/-- 32-bit right rotation (input assumed `< 2^32`). -/
def rotr32 (n x : Nat) : Nat := (x >>> n) + (x % 2 ^ n) * 2 ^ (32 - n)

def sha256Ch (x y z : Nat) : Nat := (x &&& y) ^^^ ((2 ^ 32 - 1 - x) &&& z)
def sha256Maj (x y z : Nat) : Nat := (x &&& y) ^^^ (x &&& z) ^^^ (y &&& z)
def bigSigma0 (x : Nat) : Nat := rotr32 2 x ^^^ rotr32 13 x ^^^ rotr32 22 x
def bigSigma1 (x : Nat) : Nat := rotr32 6 x ^^^ rotr32 11 x ^^^ rotr32 25 x
def smallSigma0 (x : Nat) : Nat := rotr32 7 x ^^^ rotr32 18 x ^^^ (x >>> 3)
def smallSigma1 (x : Nat) : Nat := rotr32 17 x ^^^ rotr32 19 x ^^^ (x >>> 10)

def sha256K : List Nat :=
  [1116352408, 1899447441, 3049323471, 3921009573, 961987163,
   1508970993, 2453635748, 2870763221, 3624381080, 310598401,
   607225278, 1426881987, 1925078388, 2162078206, 2614888103,
   3248222580, 3835390401, 4022224774, 264347078, 604807628,
   770255983, 1249150122, 1555081692, 1996064986, 2554220882,
   2821834349, 2952996808, 3210313671, 3336571891, 3584528711,
   113926993, 338241895, 666307205, 773529912, 1294757372,
   1396182291, 1695183700, 1986661051, 2177026350, 2456956037,
   2730485921, 2820302411, 3259730800, 3345764771, 3516065817,
   3600352804, 4094571909, 275423344, 430227734, 506948616,
   659060556, 883997877, 958139571, 1322822218, 1537002063,
   1747873779, 1955562222, 2024104815, 2227730452, 2361852424,
   2428436474, 2756734187, 3204031479, 3329325298]

/-- The eight initial hash words of FIPS 180-4 §5.3.3 (decimal form). -/
def sha256H0 : List Nat :=
  [1779033703, 3144134277, 1013904242, 2773480762,
   1359893119, 2600822924, 528734635, 1541459225]

/-- SHA-256 padding: append `0x80`, zeros to 56 mod 64, then the bit
length as an 8-byte big-endian integer. -/
def sha256Pad (msg : List Nat) : List Nat :=
  let len := msg.length
  let zeros := (64 - (len + 9) % 64) % 64
  let bitLen := len * 8
  msg ++ [0x80] ++ List.replicate zeros 0 ++
    [(bitLen >>> 56) % 256, (bitLen >>> 48) % 256, (bitLen >>> 40) % 256,
     (bitLen >>> 32) % 256, (bitLen >>> 24) % 256, (bitLen >>> 16) % 256,
     (bitLen >>> 8) % 256, bitLen % 256]

/-- Big-endian assembly of 32-bit words from bytes. -/
def bytesToWords : List Nat → List Nat
  | b0 :: b1 :: b2 :: b3 :: rest =>
    (((b0 * 256 + b1) * 256 + b2) * 256 + b3) :: bytesToWords rest
  | _ => []

/-- Extend the 16 message words to 64 schedule words. -/
def sha256Extend (ws : List Nat) : Nat → List Nat
  | 0 => ws
  | fuel + 1 =>
    let t := ws.length
    let w := w32 (smallSigma1 (ws.getD (t - 2) 0) + ws.getD (t - 7) 0 +
                  smallSigma0 (ws.getD (t - 15) 0) + ws.getD (t - 16) 0)
    sha256Extend (ws ++ [w]) fuel

/-- One round of the SHA-256 compression function on the 8-word state. -/
def sha256Round (s : List Nat) (kw : Nat × Nat) : List Nat :=
  match s with
  | [a, b, c, d, e, f, g, h] =>
    let t1 := w32 (h + bigSigma1 e + sha256Ch e f g + kw.1 + kw.2)
    let t2 := w32 (bigSigma0 a + sha256Maj a b c)
    [w32 (t1 + t2), a, b, c, w32 (d + t1), e, f, g]
  | _ => s

/-- Compress one 64-byte chunk into the running hash state. -/
def sha256Chunk (h : List Nat) (chunk : List Nat) : List Nat :=
  let ws := sha256Extend (bytesToWords chunk) 48
  let final := (sha256K.zip ws).foldl sha256Round h
  List.zipWith (fun x y => w32 (x + y)) h final

/-- Split a byte list into 64-byte chunks. -/
def chunks64 (bytes : List Nat) : List (List Nat) :=
  if h : bytes = [] then []
  else bytes.take 64 :: chunks64 (bytes.drop 64)
termination_by bytes.length
decreasing_by
  simp [List.length_drop]
  exact List.length_pos.mpr h

/-- Serialize the 8-word state big-endian. -/
def wordsToBytes : List Nat → List Nat
  | [] => []
  | w :: rest =>
    (w >>> 24) % 256 :: (w >>> 16) % 256 :: (w >>> 8) % 256 :: w % 256 ::
      wordsToBytes rest

/-- SHA-256 of a byte sequence (FIPS 180-4), as used through the `sha2`
crate by `generate_pkce`. -/
def sha256 (msg : List Nat) : List Nat :=
  wordsToBytes ((chunks64 (sha256Pad msg)).foldl sha256Chunk sha256H0)

/-- The base64url alphabet (RFC 4648 §5). -/
def base64urlAlphabet : List Char :=
  "ABCDEFGHIJKLMNOPQRSTUVWXYZabcdefghijklmnopqrstuvwxyz0123456789-_".data

/-- base64url encoding without padding (`URL_SAFE_NO_PAD` of the
`base64` crate), as used by `generate_pkce`. -/
def base64urlNoPad : List Nat → List Char
  | b0 :: b1 :: b2 :: rest =>
    base64urlAlphabet.getD (b0 >>> 2) 'A' ::
    base64urlAlphabet.getD ((b0 % 4) * 16 + (b1 >>> 4)) 'A' ::
    base64urlAlphabet.getD ((b1 % 16) * 4 + (b2 >>> 6)) 'A' ::
    base64urlAlphabet.getD (b2 % 64) 'A' :: base64urlNoPad rest
  | [b0, b1] =>
    [base64urlAlphabet.getD (b0 >>> 2) 'A',
     base64urlAlphabet.getD ((b0 % 4) * 16 + (b1 >>> 4)) 'A',
     base64urlAlphabet.getD ((b1 % 16) * 4) 'A']
  | [b0] =>
    [base64urlAlphabet.getD (b0 >>> 2) 'A',
     base64urlAlphabet.getD ((b0 % 4) * 16) 'A']
  | [] => []

/-- The character set `generate_pkce` draws the verifier from
(`"ABC...xyz0123456789-._~"`, 66 ASCII characters). -/
def pkceChars : List Char :=
  "ABCDEFGHIJKLMNOPQRSTUVWXYZabcdefghijklmnopqrstuvwxyz0123456789-._~".data

/-- `generate_pkce` (src/auth/oauth.rs): build a 64-character verifier
by picking, for each of the 64 positions, the character of `pkceChars`
indexed by a hash value modulo the character-set length, then compute
`challenge = URL_SAFE_NO_PAD.encode(Sha256::digest(verifier))`.  The
`RandomState`-hash randomness source is passed in as `rand : Nat -> Nat`
(position `i` receives hash output `rand i`). -/
def generate_pkce (rand : Nat -> Nat) : String × String :=
  let verifier : String :=
    String.mk ((List.range 64).map (fun i => pkceChars.getD (rand i % pkceChars.length) 'A'))
  let hash := sha256 (verifier.data.map Char.toNat)
  let challenge := String.mk (base64urlNoPad hash)
  (verifier, challenge)

/-- The RFC 3986 unreserved character set: ASCII letters, digits,
`-`, `.`, `_`, `~`. -/
def isUnreserved (c : Char) : Bool :=
  c.isAlpha || c.isDigit || c = '-' || c = '.' || c = '_' || c = '~'

/-! ## Tool invocation (src/mcp/protocol.rs `ToolCallResult` and
src/mcp/client.rs `McpClient::call_tool`, lines 95–124). -/

/-- `enum ContentItem` with `#[serde(tag = "type", rename_all = "lowercase")]`. -/
inductive ContentItem where
  | text (text : String) : ContentItem
  | image (data : String) (mimeType : String) : ContentItem
  | resource (resource : Json) : ContentItem

/-- `struct ToolCallResult { content: Vec<ContentItem>, #[serde(default)] is_error: bool }`
with `rename_all = "camelCase"` (wire field `isError`). -/
structure ToolCallResult where
  content : List ContentItem
  is_error : Bool

/-- serde decoding of one `ContentItem`, dispatching on the `type` tag;
`Image`'s `mime_type` field is renamed `mimeType` on the wire. -/
def decodeContentItem (j : Json) : Except String ContentItem :=
  match j.getStr "type" with
  | some "text" =>
    match j.getStr "text" with
    | some t => .ok (.text t)
    | none => .error "missing text"
  | some "image" =>
    match j.getStr "data", j.getStr "mimeType" with
    | some d, some m => .ok (.image d m)
    | _, _ => .error "missing image field"
  | some "resource" =>
    match j.getField "resource" with
    | some r => .ok (.resource r)
    | none => .error "missing resource"
  | _ => .error "unknown or missing type tag"

/-- serde decoding of `ToolCallResult`: `content` is a required array
of content items; `isError` defaults to `false` when the field is
missing and must be a JSON boolean when present. -/
def decodeToolCallResult (j : Json) : Except String ToolCallResult :=
  match j with
  | .obj _ =>
    match j.getField "content" with
    | some (.arr items) =>
      match items.mapM decodeContentItem with
      | .error e => .error e
      | .ok content =>
        match j.getField "isError" with
        | none => .ok ⟨content, false⟩
        | some (.bool b) => .ok ⟨content, b⟩
        | some _ => .error "isError is not a boolean"
    | _ => .error "missing or invalid content"
  | _ => .error "result is not an object"

/-- The failure modes of `McpClient::call_tool`. -/
inductive CallToolError where
  | transport (msg : String) : CallToolError
  | rpcError (code : Int) (message : String) : CallToolError
  | noResult : CallToolError
  | malformedResult (msg : String) : CallToolError

/-- The response handling of `McpClient::call_tool`
(src/mcp/client.rs): a transport failure propagates; a JSON-RPC `error`
object fails with its code/message (`bail!`); an absent `result` fails
with `"No result in tools/call response"`; otherwise the result value
is decoded as a `ToolCallResult` and returned verbatim — including when
`is_error` is `true`. -/
def call_tool_handle (transport_outcome : Except String JsonRpcResponse) :
    Except CallToolError ToolCallResult :=
  match transport_outcome with
  | .error e => .error (.transport e)
  | .ok response =>
    match response.error with
    | some err => .error (.rpcError err.code err.message)
    | none =>
      match response.result with
      | none => .error .noResult
      | some v =>
        match decodeToolCallResult v with
        | .error e => .error (.malformedResult e)
        | .ok result => .ok result

/-! ## Credential store (src/auth/storage.rs). -/

/-- `struct StoredToken` (src/auth/storage.rs): `expires_at` is a
`u64` unix timestamp (model: `Nat`, representable iff `< 2^64`). -/
structure StoredToken where
  access_token : String
  refresh_token : Option String
  expires_at : Option Nat
  token_type : String
deriving DecidableEq

/-- `struct AuthStore { tokens: HashMap<String, StoredToken>, clients:
HashMap<String, StoredClient> }`, the maps modelled as association
lists in serialization order. -/
structure AuthStore where
  tokens : List (String × StoredToken)
  clients : List (String × StoredClient)
deriving DecidableEq

/-- serde serialization of an `Option<String>` field without a skip
attribute: `None` is written as an explicit `null`. -/
def encodeOptStr : Option String → Json
  | none => .null
  | some s => .str s

/-- serde serialization of `StoredToken` (field order as declared;
`Option` fields become `null` when absent). -/
def encodeStoredToken (t : StoredToken) : Json :=
  .obj [("access_token", .str t.access_token),
        ("refresh_token", encodeOptStr t.refresh_token),
        ("expires_at", match t.expires_at with
                       | none => .null
                       | some e => .num e),
        ("token_type", .str t.token_type)]

/-- serde serialization of `StoredClient`. -/
def encodeStoredClient (c : StoredClient) : Json :=
  .obj [("client_id", .str c.client_id),
        ("client_secret", encodeOptStr c.client_secret),
        ("redirect_uri", encodeOptStr c.redirect_uri)]

/-- serde serialization of `AuthStore` (the whole-file JSON layout
`{tokens: {...}, clients: {...}}`). -/
def encodeAuthStore (s : AuthStore) : Json :=
  .obj [("tokens", .obj (s.tokens.map (fun kv => (kv.1, encodeStoredToken kv.2)))),
        ("clients", .obj (s.clients.map (fun kv => (kv.1, encodeStoredClient kv.2))))]

/-- serde decoding of an optional string field (`Option<String>`):
missing field or `null` gives `None`, a string gives `Some`, anything
else fails. -/
def decodeOptStrField (j : Json) (k : String) : Except String (Option String) :=
  match j.getField k with
  | none => .ok none
  | some .null => .ok none
  | some (.str s) => .ok (some s)
  | some _ => .error "expected string or null"

/-- serde decoding of `StoredToken`. -/
def decodeStoredToken (j : Json) : Except String StoredToken :=
  match j with
  | .obj _ =>
    match j.getField "access_token", j.getField "token_type" with
    | some (.str at_), some (.str tt) =>
      match decodeOptStrField j "refresh_token" with
      | .error e => .error e
      | .ok rt =>
        match j.getField "expires_at" with
        | none => .ok ⟨at_, rt, none, tt⟩
        | some .null => .ok ⟨at_, rt, none, tt⟩
        | some (.num n) =>
          if 0 ≤ n ∧ n < 2 ^ 64 then .ok ⟨at_, rt, some n.toNat, tt⟩
          else .error "expires_at out of range"
        | some _ => .error "invalid expires_at"
    | _, _ => .error "missing token field"
  | _ => .error "token is not an object"

/-- serde decoding of `StoredClient` (`redirect_uri` has
`#[serde(default)]`, so a missing field is `None`). -/
def decodeStoredClient (j : Json) : Except String StoredClient :=
  match j with
  | .obj _ =>
    match j.getField "client_id" with
    | some (.str cid) =>
      match decodeOptStrField j "client_secret" with
      | .error e => .error e
      | .ok cs =>
        match decodeOptStrField j "redirect_uri" with
        | .error e => .error e
        | .ok ru => .ok ⟨cid, cs, ru⟩
    | _ => .error "missing client_id"
  | _ => .error "client is not an object"

/-- serde decoding of a `HashMap<String, V>`-typed field: the JSON
object's entries are decoded in order. -/
def decodeEntries {α : Type} (dec : Json → Except String α) :
    List (String × Json) → Except String (List (String × α))
  | [] => .ok []
  | (k, v) :: rest =>
    match dec v with
    | .error e => .error e
    | .ok a =>
      match decodeEntries dec rest with
      | .error e => .error e
      | .ok tail => .ok ((k, a) :: tail)

/-- serde decoding of `AuthStore`: both `tokens` and `clients` are
required object-valued fields. -/
def decodeAuthStore (j : Json) : Except String AuthStore :=
  match j with
  | .obj _ =>
    match j.getField "tokens", j.getField "clients" with
    | some (.obj tokenEntries), some (.obj clientEntries) =>
      match decodeEntries decodeStoredToken tokenEntries with
      | .error e => .error e
      | .ok tokens =>
        match decodeEntries decodeStoredClient clientEntries with
        | .error e => .error e
        | .ok clients => .ok ⟨tokens, clients⟩
    | _, _ => .error "missing tokens or clients"
  | _ => .error "store is not an object"

/-- `AuthStore::load` (src/auth/storage.rs, lines 43–53): when the
store file does not exist, return `Self::default()` (both maps empty);
otherwise parse the file's contents (the parsed JSON modelled as the
`some` payload). -/
def loadAuthStore : Option Json → Except String AuthStore
  | none => .ok ⟨[], []⟩
  | some j => decodeAuthStore j

/-- `AuthStore::save` followed by re-reading the file, modelled at the
JSON level: the file then holds exactly `encodeAuthStore store`. -/
def saveAuthStore (s : AuthStore) : Option Json :=
  some (encodeAuthStore s)

/-- `AuthStore::is_token_expired` (src/auth/storage.rs, lines 88–101),
with the clock passed in: `now` is the current unix time in seconds. -/
def is_token_expired (s : AuthStore) (now : Nat) (server_name : String) : Bool :=
  match assoc server_name s.tokens with
  | some token =>
    match token.expires_at with
    | some expires_at => now + 300 ≥ expires_at
    | none => false
  | none => false

/-! ## Auxiliary predicates used by the statements below. -/

/-- Whether a `Json` value is an object. -/
def Json.isObj : Json → Bool
  | .obj _ => true
  | _ => false

/-- A `RequestId` value representable in the Rust type (`Number` carries
a `u64`). -/
def RequestId.representable : RequestId → Prop
  | .num n => n < 2 ^ 64
  | .str _ => True

/-- A `StoredToken` representable in the Rust type (`expires_at`
carries a `u64`). -/
def StoredToken.representable (t : StoredToken) : Prop :=
  ∀ e ∈ t.expires_at, e < 2 ^ 64

/-- Decidable version of `msgNoMatch`: the queued message either fails
to decode as a `JsonRpcResponse` or decodes with an id different from
`request_id`. -/
def msgNoMatchB (request_id : RequestId) (msg : QueueMsg) : Bool :=
  match decodeJsonRpcResponse msg with
  | .ok resp => resp.id ≠ request_id
  | .error _ => true

/-! # Theorems

Shared helper lemmas first, then one theorem per claim (with its
witness or counterexample where applicable). -/

/-- `setClient` really persists the registration under its key. -/
theorem assoc_setClient (auth_server : String) (c : StoredClient) :
    ∀ l : List (String × StoredClient),
      assoc auth_server (setClient auth_server c l) = some c := by
  intro l
  induction l with
  | nil => simp [setClient, assoc]
  | cons kv rest ih =>
    by_cases hk : kv.1 = auth_server
    · simp [setClient, hk, assoc]
    · obtain ⟨k, v⟩ := kv
      simp_all [setClient, assoc]

/-- An in-range `getD` returns a member of the list. -/
theorem getD_mem_of_lt {α : Type} (l : List α) (i : Nat) (d : α)
    (h : i < l.length) : l.getD i d ∈ l := by
  rw [List.getD_eq_getElem l d h]
  exact List.getElem_mem h

/-- Every character of the PKCE character set is unreserved. -/
theorem pkceChars_unreserved : ∀ c ∈ pkceChars, isUnreserved c = true := by
  decide

/-- C1 (amended): deserializing `JsonRpcResponse` fails when the
payload is not valid structured data, is not a JSON object, or lacks
an `id` field; but the missing-both / present-both `result`/`error`
conditions are NOT rejected: such payloads deserialize successfully
(the exactly-one invariant is only reflected a posteriori by
`is_success`, not enforced at decode time). -/
theorem decode_response_requires_id_not_exactly_one :
    decodeJsonRpcResponse none = .error "invalid JSON"
    ∧ (∀ j : Json, j.isObj = false → ∃ e, decodeJsonRpcResponse (some j) = .error e)
    ∧ (∀ fields : List (String × Json), assoc "id" fields = none →
        ∃ e, decodeJsonRpcResponse (some (.obj fields)) = .error e)
    ∧ decodeJsonRpcResponse (some (.obj [("jsonrpc", .str "2.0"), ("id", .num 1)]))
        = .ok ⟨"2.0", .num 1, none, none⟩
    ∧ decodeJsonRpcResponse (some (.obj [("jsonrpc", .str "2.0"), ("id", .num 1),
          ("result", .bool true),
          ("error", .obj [("code", .num (-32600)), ("message", .str "bad")])]))
        = .ok ⟨"2.0", .num 1, some (.bool true), some ⟨-32600, "bad", none⟩⟩ := by
  refine ⟨rfl, ?_, ?_, rfl, rfl⟩
  · intro j h
    cases j <;> simp_all [Json.isObj] <;> exact ⟨_, rfl⟩
  · intro fields h
    refine ⟨"missing jsonrpc or id", ?_⟩
    cases hj : assoc "jsonrpc" fields with
    | none => simp [decodeJsonRpcResponse, Json.getField, h, hj]
    | some v => cases v <;> simp [decodeJsonRpcResponse, Json.getField, h, hj]

/-- C1 witness: concrete inputs exercising the hypotheses of the
amended decode theorem. -/
theorem decode_response_requires_id_not_exactly_one_witness :
    (Json.isObj (.str "hi") = false ∧ ∃ e, decodeJsonRpcResponse (some (.str "hi")) = .error e)
    ∧ (assoc "id" [("jsonrpc", Json.str "2.0")] = none
        ∧ ∃ e, decodeJsonRpcResponse (some (.obj [("jsonrpc", .str "2.0")])) = .error e) :=
  ⟨⟨rfl, decode_response_requires_id_not_exactly_one.2.1 _ rfl⟩,
   ⟨rfl, decode_response_requires_id_not_exactly_one.2.2.1 _ rfl⟩⟩

/-- C1 counterexample: the payload `{"jsonrpc": "2.0", "id": 1}` has
neither a `result` field nor an `error` field, yet deserializing it
into `JsonRpcResponse` returns a value, not an error — refuting the
claim that such payloads always fail to decode. -/
theorem decode_response_accepts_neither_result_nor_error :
    decodeJsonRpcResponse (some (.obj [("jsonrpc", .str "2.0"), ("id", .num 1)]))
      = .ok ⟨"2.0", .num 1, none, none⟩
    ∧ Json.getField (.obj [("jsonrpc", .str "2.0"), ("id", .num 1)]) "result" = none
    ∧ Json.getField (.obj [("jsonrpc", .str "2.0"), ("id", .num 1)]) "error" = none :=
  ⟨rfl, rfl, rfl⟩

/-- C7: serializing a JSON-RPC request and deserializing it back
preserves the identifier exactly, for numeric and string identifiers
alike (a numeric-looking string stays a string: the decode of an
encoded id reproduces the same constructor and payload). -/
theorem request_id_roundtrip (r : JsonRpcRequest) (h : r.id.representable) :
    ∃ r2 : JsonRpcRequest,
      decodeJsonRpcRequest (some (encodeJsonRpcRequest r)) = .ok r2 ∧ r2.id = r.id := by
  obtain ⟨ver, id, m, params⟩ := r
  refine ⟨⟨ver, id, m,
    decodeOptValueField (encodeJsonRpcRequest ⟨ver, id, m, params⟩) "params"⟩, ?_, rfl⟩
  have hd : decodeRequestId (encodeRequestId id) = .ok id := by
    cases id with
    | num n =>
      simp only [RequestId.representable] at h
      simp [decodeRequestId, encodeRequestId]
      omega
    | str s => rfl
  simp [decodeJsonRpcRequest, encodeJsonRpcRequest, Json.getField, assoc, hd, Except.map]

/-- C7 witness: round-trip at the numeric id `42` and at the
numeric-looking string id `"42"`. -/
theorem request_id_roundtrip_witness :
    (RequestId.representable (.num 42)
      ∧ ∃ r2, decodeJsonRpcRequest (some (encodeJsonRpcRequest
          ⟨"2.0", .num 42, "tools/list", none⟩)) = .ok r2 ∧ r2.id = .num 42)
    ∧ (RequestId.representable (.str "42")
      ∧ ∃ r2, decodeJsonRpcRequest (some (encodeJsonRpcRequest
          ⟨"2.0", .str "42", "tools/list", none⟩)) = .ok r2 ∧ r2.id = .str "42") :=
  ⟨⟨by norm_num [RequestId.representable],
    request_id_roundtrip ⟨"2.0", .num 42, "tools/list", none⟩
      (by norm_num [RequestId.representable])⟩,
   ⟨trivial,
    request_id_roundtrip ⟨"2.0", .str "42", "tools/list", none⟩ trivial⟩⟩

/-- C2: after a `202 Accepted`, the SSE transport's drain loop discards
every queued message that does not decode with the outstanding
request's identifier, returns the first message that does — even when
it arrives after unrelated messages — and fails (returns no response,
the `ConnectionClosed` error) when the queue closes without a match. -/
theorem sse_drain_correlation (rid : RequestId) :
    (∀ (pre rest : List QueueMsg) (m : QueueMsg) (resp : JsonRpcResponse),
        pre.all (msgNoMatchB rid) = true →
        decodeJsonRpcResponse m = .ok resp → resp.id = rid →
        drainQueue rid (pre ++ m :: rest) = some resp)
    ∧ (∀ q : List QueueMsg, q.all (msgNoMatchB rid) = true →
        drainQueue rid q = none) := by
  constructor
  · intro pre rest m resp hpre hm hid
    induction pre with
    | nil => simp [drainQueue, hm, hid]
    | cons x pre ih =>
      simp only [List.all_cons, Bool.and_eq_true] at hpre
      obtain ⟨hx, hpre⟩ := hpre
      have ih2 := ih hpre
      simp only [List.cons_append, drainQueue]
      unfold msgNoMatchB at hx
      cases hdx : decodeJsonRpcResponse x with
      | error e => simp [hdx, ih2]
      | ok r =>
        rw [hdx] at hx
        simp only [decide_eq_true_eq] at hx
        simp [hdx, hx, ih2]
  · intro q hq
    induction q with
    | nil => rfl
    | cons x q ih =>
      simp only [List.all_cons, Bool.and_eq_true] at hq
      obtain ⟨hx, hq⟩ := hq
      have ih2 := ih hq
      unfold msgNoMatchB at hx
      cases hdx : decodeJsonRpcResponse x with
      | error e => simp [drainQueue, hdx, ih2]
      | ok r =>
        rw [hdx] at hx
        simp only [decide_eq_true_eq] at hx
        simp [drainQueue, hdx, hx, ih2]

/-- C2 witness: a queue holding an unparsable message, a non-JSON-RPC
message and a response with id 2 before the id-1 response: the drain
for id 1 skips all of them and returns the id-1 response; a queue of
only non-matching messages yields no response. -/
theorem sse_drain_correlation_witness :
    ([none, some (.str "ping"),
      some (.obj [("jsonrpc", Json.str "2.0"), ("id", .num 2), ("result", .num 5)])].all
        (msgNoMatchB (.num 1)) = true
      ∧ decodeJsonRpcResponse
          (some (.obj [("jsonrpc", Json.str "2.0"), ("id", .num 1), ("result", .num 7)]))
          = .ok ⟨"2.0", .num 1, some (.num 7), none⟩
      ∧ RequestId.num 1 = RequestId.num 1
      ∧ drainQueue (.num 1)
          ([none, some (.str "ping"),
            some (.obj [("jsonrpc", Json.str "2.0"), ("id", .num 2), ("result", .num 5)])] ++
           some (.obj [("jsonrpc", Json.str "2.0"), ("id", .num 1), ("result", .num 7)]) ::
           [some (.obj [("jsonrpc", Json.str "2.0"), ("id", .num 3), ("result", .num 9)])])
          = some ⟨"2.0", .num 1, some (.num 7), none⟩)
    ∧ ([none, some (.obj [("jsonrpc", Json.str "2.0"), ("id", .num 2), ("result", .num 5)])].all
          (msgNoMatchB (.num 1)) = true
        ∧ drainQueue (.num 1)
            [none, some (.obj [("jsonrpc", Json.str "2.0"), ("id", .num 2), ("result", .num 5)])]
            = none) :=
  ⟨⟨rfl, rfl, rfl, (sse_drain_correlation (.num 1)).1 _ _ _ _ rfl rfl rfl⟩,
   ⟨rfl, (sse_drain_correlation (.num 1)).2 _ rfl⟩⟩

/-- C3: the HTTP transport's status handling: 401 yields the
distinguished authentication-required condition whatever the body is
(including empty); any other non-success status with an OAuth-shaped
body whose `error` is `invalid_token` is promoted to the same
condition; other OAuth-shaped bodies surface the error and its
(defaulted-empty) description; all remaining non-success statuses
surface the raw status and body. -/
theorem http_status_classification (server_name body : String) (status : Nat)
    (parsed : Option Json) (j : Json) (e : String) :
    (classifyHttpStatus server_name 401 body parsed = some (.authRequired server_name))
    ∧ (status ≠ 401 → isSuccessStatus status = false →
        j.getStr "error" = some "invalid_token" →
        classifyHttpStatus server_name status body (some j)
          = some (.authRequired server_name))
    ∧ (status ≠ 401 → isSuccessStatus status = false →
        j.getStr "error" = some e → e ≠ "invalid_token" →
        classifyHttpStatus server_name status body (some j)
          = some (.oauthError e ((j.getStr "error_description").getD "")))
    ∧ (status ≠ 401 → isSuccessStatus status = false →
        j.getStr "error" = none →
        classifyHttpStatus server_name status body (some j)
          = some (.httpError status body))
    ∧ (status ≠ 401 → isSuccessStatus status = false →
        classifyHttpStatus server_name status body none
          = some (.httpError status body)) := by
  refine ⟨by simp [classifyHttpStatus], ?_, ?_, ?_, ?_⟩
  · intro h1 h2 h3
    simp [classifyHttpStatus, h1, h2, h3]
  · intro h1 h2 h3 h4
    simp [classifyHttpStatus, h1, h2, h3, h4]
  · intro h1 h2 h3
    simp [classifyHttpStatus, h1, h2, h3]
  · intro h1 h2
    simp [classifyHttpStatus, h1, h2]

/-- C3 witness: status 500 with an `invalid_token` OAuth body, with a
`server_error` OAuth body, with a non-OAuth JSON body, and with an
unparsable body; and 401 with an empty body. -/
theorem http_status_classification_witness :
    (classifyHttpStatus "srv" 401 "" none = some (.authRequired "srv"))
    ∧ ((500 : Nat) ≠ 401 ∧ isSuccessStatus 500 = false
        ∧ (Json.obj [("error", .str "invalid_token")]).getStr "error" = some "invalid_token"
        ∧ classifyHttpStatus "srv" 500 "body" (some (.obj [("error", .str "invalid_token")]))
            = some (.authRequired "srv"))
    ∧ ((Json.obj [("error", .str "server_error"), ("error_description", .str "boom")]).getStr
          "error" = some "server_error"
        ∧ "server_error" ≠ "invalid_token"
        ∧ classifyHttpStatus "srv" 500 "body"
            (some (.obj [("error", .str "server_error"), ("error_description", .str "boom")]))
            = some (.oauthError "server_error" "boom"))
    ∧ ((Json.obj [("ok", .bool true)]).getStr "error" = none
        ∧ classifyHttpStatus "srv" 503 "raw" (some (.obj [("ok", .bool true)]))
            = some (.httpError 503 "raw"))
    ∧ classifyHttpStatus "srv" 404 "not json" none = some (.httpError 404 "not json") :=
  ⟨(http_status_classification "srv" "" 500 none .null "").1,
   ⟨by decide, rfl, rfl,
    (http_status_classification "srv" "body" 500 none
        (.obj [("error", .str "invalid_token")]) "").2.1 (by decide) rfl rfl⟩,
   ⟨rfl, by decide,
    (http_status_classification "srv" "body" 500 none
        (.obj [("error", .str "server_error"), ("error_description", .str "boom")])
        "server_error").2.2.1 (by decide) rfl rfl (by decide)⟩,
   ⟨rfl,
    (http_status_classification "srv" "raw" 503 none
        (.obj [("ok", .bool true)]) "").2.2.2.1 (by decide) rfl rfl⟩,
   (http_status_classification "srv" "not json" 404 none .null "").2.2.2.2
     (by decide) rfl⟩

/-- C4: callback parsing — for every query string, a reported `error`
parameter aborts with the server's error and description; otherwise a
missing or mismatching `state` aborts with the CSRF guard's error
(`missingState`/`stateMismatch`) before the code is considered; with a
matching state a present `code` is returned and a missing one is a
failure; concretely, `code=ABC&state=S1` against expected state `S1`
yields `ABC`, against `S2` fails with the CSRF mismatch, and
`error=access_denied&error_description=no` surfaces both fields. -/
theorem callback_parsing (query expected c : String) :
    (∀ e, (accumParams query).error = some e →
      checkCallback (accumParams query) expected
        = .error (.authorizationFailed e ((accumParams query).error_description.getD "")))
    ∧ ((accumParams query).error = none → (accumParams query).state = none →
      checkCallback (accumParams query) expected = .error .missingState)
    ∧ (∀ st, (accumParams query).error = none → (accumParams query).state = some st →
      st ≠ expected →
      checkCallback (accumParams query) expected = .error .stateMismatch)
    ∧ ((accumParams query).error = none → (accumParams query).state = some expected →
      (accumParams query).code = some c →
      checkCallback (accumParams query) expected = .ok c)
    ∧ ((accumParams query).error = none → (accumParams query).state = some expected →
      (accumParams query).code = none →
      checkCallback (accumParams query) expected = .error .missingCode)
    ∧ parse_callback "GET /callback?code=ABC&state=S1 HTTP/1.1" "S1" = .ok "ABC"
    ∧ parse_callback "GET /callback?code=ABC&state=S1 HTTP/1.1" "S2" = .error .stateMismatch
    ∧ parse_callback "GET /callback?error=access_denied&error_description=no HTTP/1.1" "S1"
        = .error (.authorizationFailed "access_denied" "no") := by
  refine ⟨?_, ?_, ?_, ?_, ?_, rfl, rfl, rfl⟩
  · intro e he
    simp [checkCallback, he]
  · intro he hs
    simp [checkCallback, he, hs]
  · intro st he hs hne
    simp [checkCallback, he, hs, hne]
  · intro he hs hc
    simp [checkCallback, he, hs, hc]
  · intro he hs hc
    simp [checkCallback, he, hs, hc]

/-- C4 witness: the parameter-level clauses exercised on concrete query
strings (error present even with matching state; state mismatch with a
code present; matching state with and without a code). -/
theorem callback_parsing_witness :
    ((accumParams "error=denied&state=S1").error = some "denied"
      ∧ checkCallback (accumParams "error=denied&state=S1") "S1"
          = .error (.authorizationFailed "denied" ""))
    ∧ ((accumParams "code=ABC").error = none ∧ (accumParams "code=ABC").state = none
      ∧ checkCallback (accumParams "code=ABC") "S1" = .error .missingState)
    ∧ ((accumParams "code=ABC&state=S2").error = none
      ∧ (accumParams "code=ABC&state=S2").state = some "S2"
      ∧ "S2" ≠ "S1"
      ∧ checkCallback (accumParams "code=ABC&state=S2") "S1" = .error .stateMismatch)
    ∧ ((accumParams "code=ABC&state=S1").error = none
      ∧ (accumParams "code=ABC&state=S1").state = some "S1"
      ∧ (accumParams "code=ABC&state=S1").code = some "ABC"
      ∧ checkCallback (accumParams "code=ABC&state=S1") "S1" = .ok "ABC")
    ∧ ((accumParams "state=S1").error = none
      ∧ (accumParams "state=S1").state = some "S1"
      ∧ (accumParams "state=S1").code = none
      ∧ checkCallback (accumParams "state=S1") "S1" = .error .missingCode) :=
  ⟨⟨rfl, (callback_parsing "error=denied&state=S1" "S1" "").1 "denied" rfl⟩,
   ⟨rfl, rfl, (callback_parsing "code=ABC" "S1" "").2.1 rfl rfl⟩,
   ⟨rfl, rfl, by decide,
    (callback_parsing "code=ABC&state=S2" "S1" "").2.2.1 "S2" rfl rfl (by decide)⟩,
   ⟨rfl, rfl, rfl, (callback_parsing "code=ABC&state=S1" "S1" "ABC").2.2.2.1 rfl rfl rfl⟩,
   ⟨rfl, rfl, rfl, (callback_parsing "state=S1" "S1" "").2.2.2.2.1 rfl rfl rfl⟩⟩

/-- C5: client acquisition — a stored client whose recorded redirect
URI yields a parsable port is reused unchanged when binding that exact
port succeeds; a bind failure or a missing/unparsable redirect URI
discards the stored client and performs dynamic registration; a fresh
registration binds an ephemeral port, registers
`http://localhost:{port}/callback`, and persists the new client
(overwriting the old binding for the authorization server); a required
registration with no registration endpoint fails with the
no-registration-endpoint condition. -/
theorem client_acquisition_policy (env : AcquireEnv) (regEp : Option String)
    (auth_server : String) (clients : List (String × StoredClient))
    (stored : StoredClient) (uri : String) (port : Nat) :
    (assoc auth_server clients = some stored → stored.redirect_uri = some uri →
      extract_port_from_uri uri = some port → env.bindPortOk port = true →
      acquireClient env regEp auth_server clients = .ok ⟨port, uri, stored, clients, false⟩)
    ∧ (assoc auth_server clients = some stored → stored.redirect_uri = some uri →
      extract_port_from_uri uri = some port → env.bindPortOk port = false →
      acquireClient env regEp auth_server clients
        = register_new_client env regEp auth_server (removeClient auth_server clients))
    ∧ (assoc auth_server clients = some stored → stored.redirect_uri = some uri →
      extract_port_from_uri uri = none →
      acquireClient env regEp auth_server clients
        = register_new_client env regEp auth_server (removeClient auth_server clients))
    ∧ (assoc auth_server clients = some stored → stored.redirect_uri = none →
      acquireClient env regEp auth_server clients
        = register_new_client env regEp auth_server (removeClient auth_server clients))
    ∧ (register_new_client env none auth_server clients = .error .noRegistrationEndpoint)
    ∧ (∀ (ep : String) (p : Nat) (response : ClientRegistrationResponse),
        regEp = some ep → env.ephemeralPort = some p → env.regOutcome = .ok response →
        register_new_client env regEp auth_server clients
          = .ok ⟨p, "http://localhost:" ++ toString p ++ "/callback",
                 ⟨response.client_id, response.client_secret,
                  some ("http://localhost:" ++ toString p ++ "/callback")⟩,
                 setClient auth_server
                   ⟨response.client_id, response.client_secret,
                    some ("http://localhost:" ++ toString p ++ "/callback")⟩ clients,
                 true⟩)
    ∧ (∀ c2 : StoredClient,
        assoc auth_server (setClient auth_server c2 clients) = some c2) := by
  refine ⟨?_, ?_, ?_, ?_, rfl, ?_, fun c2 => assoc_setClient auth_server c2 clients⟩
  · intro h1 h2 h3 h4
    simp [acquireClient, h1, h2, h3, h4]
  · intro h1 h2 h3 h4
    simp [acquireClient, h1, h2, h3, h4]
  · intro h1 h2 h3
    simp [acquireClient, h1, h2, h3]
  · intro h1 h2
    simp [acquireClient, h1, h2]
  · intro ep p response h1 h2 h3
    simp [register_new_client, h1, h2, h3]

/-- C5 witness: a stored client for port 4000 reused when the bind
succeeds; re-registration through an ephemeral port 5001 when the bind
fails, overwriting the stored entry; and the missing-registration-
endpoint failure. -/
theorem client_acquisition_policy_witness :
    (assoc "as" [("as", (⟨"old", none, some "http://localhost:4000/callback"⟩ : StoredClient))]
        = some ⟨"old", none, some "http://localhost:4000/callback"⟩
      ∧ (⟨"old", none, some "http://localhost:4000/callback"⟩ : StoredClient).redirect_uri
          = some "http://localhost:4000/callback"
      ∧ extract_port_from_uri "http://localhost:4000/callback" = some 4000
      ∧ AcquireEnv.bindPortOk ⟨fun _ => true, some 5001, .ok ⟨"new", some "sec"⟩⟩ 4000 = true
      ∧ acquireClient ⟨fun _ => true, some 5001, .ok ⟨"new", some "sec"⟩⟩ (some "https://reg")
          "as" [("as", ⟨"old", none, some "http://localhost:4000/callback"⟩)]
          = .ok ⟨4000, "http://localhost:4000/callback",
                 ⟨"old", none, some "http://localhost:4000/callback"⟩,
                 [("as", ⟨"old", none, some "http://localhost:4000/callback"⟩)], false⟩)
    ∧ (AcquireEnv.bindPortOk ⟨fun _ => false, some 5001, .ok ⟨"new", some "sec"⟩⟩ 4000 = false
      ∧ acquireClient ⟨fun _ => false, some 5001, .ok ⟨"new", some "sec"⟩⟩ (some "https://reg")
          "as" [("as", ⟨"old", none, some "http://localhost:4000/callback"⟩)]
          = register_new_client ⟨fun _ => false, some 5001, .ok ⟨"new", some "sec"⟩⟩
              (some "https://reg") "as"
              (removeClient "as" [("as", ⟨"old", none, some "http://localhost:4000/callback"⟩)]))
    ∧ ((some "https://reg" : Option String) = some "https://reg"
      ∧ AcquireEnv.ephemeralPort ⟨fun _ => false, some 5001, .ok ⟨"new", some "sec"⟩⟩ = some 5001
      ∧ AcquireEnv.regOutcome ⟨fun _ => false, some 5001, .ok ⟨"new", some "sec"⟩⟩
          = .ok ⟨"new", some "sec"⟩
      ∧ register_new_client ⟨fun _ => false, some 5001, .ok ⟨"new", some "sec"⟩⟩
          (some "https://reg") "as" []
          = .ok ⟨5001, "http://localhost:5001/callback",
                 ⟨"new", some "sec", some "http://localhost:5001/callback"⟩,
                 setClient "as" ⟨"new", some "sec", some "http://localhost:5001/callback"⟩ [],
                 true⟩)
    ∧ register_new_client ⟨fun _ => false, some 5001, .ok ⟨"new", some "sec"⟩⟩ none "as" []
        = .error .noRegistrationEndpoint
    ∧ assoc "as" (setClient "as" (⟨"new", some "sec", some "http://localhost:5001/callback"⟩ :
        StoredClient) [("as", ⟨"old", none, some "http://localhost:4000/callback"⟩)])
        = some ⟨"new", some "sec", some "http://localhost:5001/callback"⟩ :=
  ⟨⟨rfl, rfl, rfl, rfl,
    (client_acquisition_policy ⟨fun _ => true, some 5001, .ok ⟨"new", some "sec"⟩⟩
        (some "https://reg") "as" [("as", ⟨"old", none, some "http://localhost:4000/callback"⟩)]
        ⟨"old", none, some "http://localhost:4000/callback"⟩
        "http://localhost:4000/callback" 4000).1 rfl rfl rfl rfl⟩,
   ⟨rfl,
    (client_acquisition_policy ⟨fun _ => false, some 5001, .ok ⟨"new", some "sec"⟩⟩
        (some "https://reg") "as" [("as", ⟨"old", none, some "http://localhost:4000/callback"⟩)]
        ⟨"old", none, some "http://localhost:4000/callback"⟩
        "http://localhost:4000/callback" 4000).2.1 rfl rfl rfl rfl⟩,
   ⟨rfl, rfl, rfl,
    (client_acquisition_policy ⟨fun _ => false, some 5001, .ok ⟨"new", some "sec"⟩⟩
        (some "https://reg") "as" [] ⟨"", none, none⟩ "" 0).2.2.2.2.2.1
      "https://reg" 5001 ⟨"new", some "sec"⟩ rfl rfl rfl⟩,
   (client_acquisition_policy ⟨fun _ => false, some 5001, .ok ⟨"new", some "sec"⟩⟩
       none "as" [] ⟨"", none, none⟩ "" 0).2.2.2.2.1,
   (client_acquisition_policy ⟨fun _ => false, some 5001, .ok ⟨"new", some "sec"⟩⟩
       (some "https://reg") "as" [("as", ⟨"old", none, some "http://localhost:4000/callback"⟩)]
       ⟨"old", none, some "http://localhost:4000/callback"⟩
       "http://localhost:4000/callback" 4000).2.2.2.2.2.2
     ⟨"new", some "sec", some "http://localhost:5001/callback"⟩⟩

/-- C6: for every randomness source, the PKCE challenge equals the
no-padding base64url encoding of the SHA-256 digest of the verifier's
bytes; the verifier is 64 characters long (inside the RFC 7636 bounds
[43,128]); and every verifier character is drawn from the unreserved
set. -/
theorem pkce_generation (rand : Nat → Nat) :
    (generate_pkce rand).2
      = String.mk (base64urlNoPad (sha256 ((generate_pkce rand).1.data.map Char.toNat)))
    ∧ (generate_pkce rand).1.length = 64
    ∧ 43 ≤ (generate_pkce rand).1.length
    ∧ (generate_pkce rand).1.length ≤ 128
    ∧ (generate_pkce rand).1.data.all isUnreserved = true := by
  have hlen : (generate_pkce rand).1.length = 64 := by
    simp [generate_pkce, String.length]
  refine ⟨rfl, hlen, by rw [hlen]; norm_num, by rw [hlen]; norm_num, ?_⟩
  rw [List.all_eq_true]
  intro c hc
  simp only [generate_pkce, List.mem_map, List.mem_range] at hc
  obtain ⟨i, _, rfl⟩ := hc
  exact pkceChars_unreserved _
    (getD_mem_of_lt pkceChars _ 'A' (Nat.mod_lt _ (by decide)))

/-- C8: `call_tool` returns a successfully decoded `ToolCallResult`
verbatim (in particular an `is_error = true` result is a normal success
value), and it fails exactly when the transport fails, the response
carries a JSON-RPC error object, the result is absent, or the result is
malformed. -/
theorem call_tool_verbatim (tr : Except String JsonRpcResponse)
    (resp : JsonRpcResponse) (v : Json) (tcr : ToolCallResult)
    (e msg : String) (err : JsonRpcError) :
    (call_tool_handle (.error msg) = .error (.transport msg))
    ∧ (resp.error = some err →
        call_tool_handle (.ok resp) = .error (.rpcError err.code err.message))
    ∧ (resp.error = none → resp.result = none →
        call_tool_handle (.ok resp) = .error .noResult)
    ∧ (resp.error = none → resp.result = some v → decodeToolCallResult v = .error e →
        call_tool_handle (.ok resp) = .error (.malformedResult e))
    ∧ (resp.error = none → resp.result = some v → decodeToolCallResult v = .ok tcr →
        call_tool_handle (.ok resp) = .ok tcr)
    ∧ (∀ tcr2 : ToolCallResult, call_tool_handle tr = .ok tcr2 →
        ∃ (resp2 : JsonRpcResponse) (v2 : Json), tr = .ok resp2 ∧ resp2.error = none
          ∧ resp2.result = some v2 ∧ decodeToolCallResult v2 = .ok tcr2) := by
  refine ⟨rfl, ?_, ?_, ?_, ?_, ?_⟩
  · intro h1
    simp [call_tool_handle, h1]
  · intro h1 h2
    simp [call_tool_handle, h1, h2]
  · intro h1 h2 h3
    simp [call_tool_handle, h1, h2, h3]
  · intro h1 h2 h3
    simp [call_tool_handle, h1, h2, h3]
  · intro tcr2 hh
    cases tr with
    | error m2 => simp [call_tool_handle] at hh
    | ok resp2 =>
      cases he : resp2.error with
      | some err2 => simp [call_tool_handle, he] at hh
      | none =>
        cases hr : resp2.result with
        | none => simp [call_tool_handle, he, hr] at hh
        | some v2 =>
          cases hd : decodeToolCallResult v2 with
          | error e2 => simp [call_tool_handle, he, hr, hd] at hh
          | ok r =>
            simp only [call_tool_handle, he, hr, hd, Except.ok.injEq] at hh
            exact ⟨resp2, v2, rfl, he, hr, by rw [hd, hh]⟩

/-- C8 witness: a tool result with `isError: true` is returned verbatim
as a success; the error-object, missing-result, malformed-result and
transport-failure cases each fail; and the only-if direction recovers
the decoded result from a successful handle. -/
theorem call_tool_verbatim_witness :
    (call_tool_handle (.error "dial failure") = .error (.transport "dial failure"))
    ∧ ((⟨"2.0", .num 1, none, some ⟨-32000, "boom", none⟩⟩ : JsonRpcResponse).error
          = some ⟨-32000, "boom", none⟩
        ∧ call_tool_handle (.ok ⟨"2.0", .num 1, none, some ⟨-32000, "boom", none⟩⟩)
            = .error (.rpcError (-32000) "boom"))
    ∧ ((⟨"2.0", .num 1, none, none⟩ : JsonRpcResponse).error = none
        ∧ (⟨"2.0", .num 1, none, none⟩ : JsonRpcResponse).result = none
        ∧ call_tool_handle (.ok ⟨"2.0", .num 1, none, none⟩) = .error .noResult)
    ∧ (decodeToolCallResult (.obj []) = .error "missing or invalid content"
        ∧ call_tool_handle (.ok ⟨"2.0", .num 1, some (.obj []), none⟩)
            = .error (.malformedResult "missing or invalid content"))
    ∧ (decodeToolCallResult (.obj [("content",
          .arr [.obj [("type", .str "text"), ("text", .str "it broke")]]),
          ("isError", .bool true)])
          = .ok ⟨[.text "it broke"], true⟩
        ∧ call_tool_handle (.ok ⟨"2.0", .num 1, some (.obj [("content",
            .arr [.obj [("type", .str "text"), ("text", .str "it broke")]]),
            ("isError", .bool true)]), none⟩)
            = .ok ⟨[.text "it broke"], true⟩)
    ∧ (∃ (resp2 : JsonRpcResponse) (v2 : Json),
        (.ok ⟨"2.0", .num 1, some (.obj [("content", .arr []), ("isError", .bool true)]), none⟩
          : Except String JsonRpcResponse) = .ok resp2
        ∧ resp2.error = none ∧ resp2.result = some v2
        ∧ decodeToolCallResult v2 = .ok ⟨[], true⟩) :=
  ⟨(call_tool_verbatim (.error "x") ⟨"2.0", .num 1, none, none⟩ .null ⟨[], false⟩ ""
      "dial failure" ⟨0, "", none⟩).1,
   ⟨rfl, (call_tool_verbatim (.error "x") ⟨"2.0", .num 1, none, some ⟨-32000, "boom", none⟩⟩
      .null ⟨[], false⟩ "" "" ⟨-32000, "boom", none⟩).2.1 rfl⟩,
   ⟨rfl, rfl, (call_tool_verbatim (.error "x") ⟨"2.0", .num 1, none, none⟩
      .null ⟨[], false⟩ "" "" ⟨0, "", none⟩).2.2.1 rfl rfl⟩,
   ⟨rfl, (call_tool_verbatim (.error "x") ⟨"2.0", .num 1, some (.obj []), none⟩
      (.obj []) ⟨[], false⟩ "missing or invalid content" "" ⟨0, "", none⟩).2.2.2.1
      rfl rfl rfl⟩,
   ⟨rfl, (call_tool_verbatim (.error "x")
      ⟨"2.0", .num 1, some (.obj [("content",
        .arr [.obj [("type", .str "text"), ("text", .str "it broke")]]),
        ("isError", .bool true)]), none⟩
      (.obj [("content", .arr [.obj [("type", .str "text"), ("text", .str "it broke")]]),
        ("isError", .bool true)])
      ⟨[.text "it broke"], true⟩ "" "" ⟨0, "", none⟩).2.2.2.2.1 rfl rfl rfl⟩,
   (call_tool_verbatim
      (.ok ⟨"2.0", .num 1, some (.obj [("content", .arr []), ("isError", .bool true)]), none⟩)
      ⟨"2.0", .num 1, none, none⟩ .null ⟨[], false⟩ "" "" ⟨0, "", none⟩).2.2.2.2.2
     ⟨[], true⟩ rfl⟩

/-- Encoding then decoding a `StoredToken` is the identity (the
`expires_at` payload being a `u64`). -/
theorem decodeStoredToken_encode (t : StoredToken) (h : t.representable) :
    decodeStoredToken (encodeStoredToken t) = .ok t := by
  obtain ⟨at_, rt, ea, tt⟩ := t
  cases rt <;> cases ea <;>
    simp_all [decodeStoredToken, encodeStoredToken, encodeOptStr, decodeOptStrField,
      Json.getField, assoc, StoredToken.representable]

/-- Encoding then decoding a `StoredClient` is the identity. -/
theorem decodeStoredClient_encode (c : StoredClient) :
    decodeStoredClient (encodeStoredClient c) = .ok c := by
  obtain ⟨cid, cs, ru⟩ := c
  cases cs <;> cases ru <;>
    simp [decodeStoredClient, encodeStoredClient, encodeOptStr, decodeOptStrField,
      Json.getField, assoc]

/-- C9: loading a credential store whose file is absent yields the
empty store without error, and saving a store holding one token entry
and one client entry then reloading reproduces both entries exactly. -/
theorem auth_store_roundtrip (n a : String) (t : StoredToken) (c : StoredClient)
    (h : t.representable) :
    loadAuthStore (saveAuthStore ⟨[(n, t)], [(a, c)]⟩) = .ok ⟨[(n, t)], [(a, c)]⟩
    ∧ loadAuthStore none = .ok ⟨[], []⟩ := by
  refine ⟨?_, rfl⟩
  have ht := decodeStoredToken_encode t h
  have hc := decodeStoredClient_encode c
  simp [loadAuthStore, saveAuthStore, encodeAuthStore, decodeAuthStore, Json.getField,
    assoc, decodeEntries, ht, hc]

/-- C9 witness: round trip of a concrete store with one token (with
refresh token and expiry) and one client. -/
theorem auth_store_roundtrip_witness :
    StoredToken.representable ⟨"atok", some "rtok", some 99, "Bearer"⟩
    ∧ (loadAuthStore (saveAuthStore
          ⟨[("srv", ⟨"atok", some "rtok", some 99, "Bearer"⟩)],
           [("as", ⟨"cid", none, some "http://localhost:4/callback"⟩)]⟩)
        = .ok ⟨[("srv", ⟨"atok", some "rtok", some 99, "Bearer"⟩)],
               [("as", ⟨"cid", none, some "http://localhost:4/callback"⟩)]⟩
      ∧ loadAuthStore none = .ok ⟨[], []⟩) :=
  ⟨by norm_num [StoredToken.representable, Option.mem_def],
   auth_store_roundtrip "srv" "as" ⟨"atok", some "rtok", some 99, "Bearer"⟩
     ⟨"cid", none, some "http://localhost:4/callback"⟩
     (by norm_num [StoredToken.representable, Option.mem_def])⟩

/-- C10: `is_token_expired` reports `true` exactly when a token is
stored under the server name, that token carries an `expires_at`, and
the current time plus the 300-second grace window has reached it; a
token without an expiry, or no token at all, is never reported
expired. -/
theorem is_token_expired_iff (s : AuthStore) (now : Nat) (server_name : String) :
    is_token_expired s now server_name = true ↔
      ∃ (t : StoredToken) (e : Nat), assoc server_name s.tokens = some t
        ∧ t.expires_at = some e ∧ now + 300 ≥ e := by
  unfold is_token_expired
  cases ht : assoc server_name s.tokens with
  | none => simp
  | some t =>
    cases he : t.expires_at with
    | none => simp [he]
    | some e => simp [he]

end Relay
